import Mathlib

/-!
Verification development for `src/data_curate/utils.py`.

The repository consists of two helper functions, `generate_subtopics` and
`generate_macro_topics`, each wrapping one call to an external
`NemotronGenerator` capability in a bounded retry loop that catches only
`YamlConversionError`, prints a diagnostic per caught failure, and returns
the first successfully parsed list of strings (or an empty list when all
attempts are exhausted).

The external generator is modelled as an oracle: each of its three
operations is a function of the attempt index (the loop iteration on which
it is invoked), so an arbitrary — possibly different — behaviour on every
attempt is captured.  Runs are instrumented with an event trace recording
every generation call, every conversion call (with the exact arguments the
Python code forwards), and every printed diagnostic.
-/

/-- Configuration mapping (`model_kwargs` in the Python code): a mapping of
model configuration options, keys to values. -/
def Kwargs : Type := List (String × String)

instance : DecidableEq Kwargs := by
  unfold Kwargs
  infer_instance

/-- Python exception values that matter to this module: the
`YamlConversionError` raised by the conversion step (the only kind caught
by the retry loops), the `IndexError` raised by `llm_response[0]` on an
empty response collection, and any other exception. -/
inductive PyError where
  | yamlConversionError (msg : String)
  | indexError
  | otherError (msg : String)
  deriving DecidableEq

/-- Result of one call into the external capability: a normal return or a
raised exception. -/
inductive ExceptRes (α : Type) where
  | ok (a : α)
  | raises (e : PyError)
  deriving DecidableEq

/-- Observable events of one run: invocation of the generation operation,
invocation of the conversion operation (recording the `llm_response`,
`model` and optional `model_kwargs` arguments actually passed), and a
printed diagnostic line. Each event records the attempt (loop iteration)
index on which it happened. -/
inductive Event where
  | genCall (attempt : Nat)
  | convertCall (attempt : Nat) (llm_response : String) (model : String)
      (model_kwargs : Option Kwargs)
  | diag (attempt : Nat) (msg : String)
  deriving DecidableEq

/-- Overall outcome of a run of one of the two Python functions: a normal
return of a topic list, or a propagated (uncaught) exception. -/
inductive RunResult where
  | ok (topics : List String)
  | err (e : PyError)
  deriving DecidableEq

/-- The external `NemotronGenerator` capability, modelled as an oracle.
Every operation takes the attempt index as its first argument, so the model
captures an arbitrary behaviour on each attempt.  The remaining arguments
are exactly the parameters the Python code passes:
`generate_subtopics(model, model_kwargs, macro_topic, n_subtopics,
prompt_template)`, `generate_macro_topics(n_macro_topics, model,
model_kwargs, prompt_template)` — each returning a response collection
(list of raw response strings) — and
`convert_response_to_yaml_list(llm_response, model, model_kwargs?)`, where
the optional `model_kwargs` records whether that argument was passed at
all. -/
structure Generator where
  generate_subtopics : Nat → String → Kwargs → String → Nat → String →
    ExceptRes (List String)
  generate_macro_topics : Nat → Nat → String → Kwargs → String →
    ExceptRes (List String)
  convert_response_to_yaml_list : Nat → String → String → Option Kwargs →
    ExceptRes (List String)

/-- Classification of one loop iteration (one `try` body): the conversion
succeeded with a list `ys` (the Python code then breaks), the iteration
raised a `YamlConversionError` (caught by the `except` clause, which prints
and continues), or it raised any other exception (uncaught, propagates). -/
inductive AttemptRes where
  | success (ys : List String)
  | yamlFail (msg : String)
  | fatal (e : PyError)
  deriving DecidableEq

/-- One iteration of the retry loop of `generate_subtopics` (lines 52-68 of
`utils.py`): call `generator.generate_subtopics(model=model,
model_kwargs=model_kwargs, macro_topic=macro_topic,
n_subtopics=n_subtopics, prompt_template=prompt_template)`, index the
response collection at 0 (raising `IndexError` when it is empty), and pass
that first element to `generator.convert_response_to_yaml_list(
llm_response=llm_response[0], model=model)` — note: no `model_kwargs`.
Returns the iteration's classification together with the capability-call
events it produced. -/
def one_subtopic_attempt (g : Generator) (model : String)
    (model_kwargs : Kwargs) (macro_topic : String) (n_subtopics : Nat)
    (prompt_template : String) (i : Nat) : AttemptRes × List Event :=
  match g.generate_subtopics i model model_kwargs macro_topic n_subtopics
      prompt_template with
  | ExceptRes.ok [] =>
    (AttemptRes.fatal PyError.indexError, [Event.genCall i])
  | ExceptRes.ok (r :: _) =>
    match g.convert_response_to_yaml_list i r model none with
    | ExceptRes.ok ys =>
      (AttemptRes.success ys,
        [Event.genCall i, Event.convertCall i r model none])
    | ExceptRes.raises (PyError.yamlConversionError msg) =>
      (AttemptRes.yamlFail msg,
        [Event.genCall i, Event.convertCall i r model none])
    | ExceptRes.raises e =>
      (AttemptRes.fatal e,
        [Event.genCall i, Event.convertCall i r model none])
  | ExceptRes.raises (PyError.yamlConversionError msg) =>
    (AttemptRes.yamlFail msg, [Event.genCall i])
  | ExceptRes.raises e =>
    (AttemptRes.fatal e, [Event.genCall i])

/-- One iteration of the retry loop of `generate_macro_topics` (lines
114-129 of `utils.py`): call `generator.generate_macro_topics(
n_macro_topics=n_macro_topics, model=model, model_kwargs=model_kwargs,
prompt_template=prompt_template)`, index the response collection at 0, and
pass that first element to `generator.convert_response_to_yaml_list(
llm_response=llm_response[0], model=model, model_kwargs=model_kwargs)` —
note: `model_kwargs` IS passed here, unlike the subtopic variant. -/
def one_macro_topic_attempt (g : Generator) (model : String)
    (model_kwargs : Kwargs) (n_macro_topics : Nat)
    (prompt_template : String) (i : Nat) : AttemptRes × List Event :=
  match g.generate_macro_topics i n_macro_topics model model_kwargs
      prompt_template with
  | ExceptRes.ok [] =>
    (AttemptRes.fatal PyError.indexError, [Event.genCall i])
  | ExceptRes.ok (r :: _) =>
    match g.convert_response_to_yaml_list i r model (some model_kwargs) with
    | ExceptRes.ok ys =>
      (AttemptRes.success ys,
        [Event.genCall i, Event.convertCall i r model (some model_kwargs)])
    | ExceptRes.raises (PyError.yamlConversionError msg) =>
      (AttemptRes.yamlFail msg,
        [Event.genCall i, Event.convertCall i r model (some model_kwargs)])
    | ExceptRes.raises e =>
      (AttemptRes.fatal e,
        [Event.genCall i, Event.convertCall i r model (some model_kwargs)])
  | ExceptRes.raises (PyError.yamlConversionError msg) =>
    (AttemptRes.yamlFail msg, [Event.genCall i])
  | ExceptRes.raises e =>
    (AttemptRes.fatal e, [Event.genCall i])

/-- The shared retry driver, a direct transcription of the
`for _ in range(n_retries): try ... break / except YamlConversionError as
e: print(f"Hit: \x7be\x7d, Retrying...")` construct both functions use.
`i` is the current iteration index, `fuel` the number of iterations left,
and `acc` the current value of the result variable (`subtopics` resp.
`macro_topics`, initialised to `[]` and only reassigned on a successful
conversion, which immediately breaks).  On success the loop breaks and the
function returns the parsed list; on a caught `YamlConversionError` a
diagnostic is printed and the next iteration runs; on any other exception
the run ends with that exception propagating; on exhausted fuel the
function returns `acc`. -/
def run_attempts (attempt : Nat → AttemptRes × List Event) (i : Nat)
    (fuel : Nat) (acc : List String) : RunResult × List Event :=
  match fuel with
  | 0 => (RunResult.ok acc, [])
  | Nat.succ fuel' =>
    match attempt i with
    | (AttemptRes.success ys, evs) => (RunResult.ok ys, evs)
    | (AttemptRes.yamlFail msg, evs) =>
      ((run_attempts attempt (i + 1) fuel' acc).1,
        evs ++ Event.diag i ("Hit: " ++ msg ++ ", Retrying...") ::
          (run_attempts attempt (i + 1) fuel' acc).2)
    | (AttemptRes.fatal e, evs) => (RunResult.err e, evs)

/-- `generate_subtopics` from `utils.py` (lines 16-74): initialise
`subtopics = []`, run the bounded retry loop, return the final value of
`subtopics` (or propagate an uncaught exception).  The result is paired
with the run's event trace. -/
def generate_subtopics (g : Generator) (model : String)
    (model_kwargs : Kwargs) (macro_topic : String) (n_subtopics : Nat)
    (prompt_template : String) (n_retries : Nat) :
    RunResult × List Event :=
  run_attempts
    (one_subtopic_attempt g model model_kwargs macro_topic n_subtopics
      prompt_template) 0 n_retries []

/-- `generate_macro_topics` from `utils.py` (lines 77-135): initialise
`macro_topics = []`, run the bounded retry loop, return the final value of
`macro_topics` (or propagate an uncaught exception). -/
def generate_macro_topics (g : Generator) (model : String)
    (model_kwargs : Kwargs) (n_macro_topics : Nat)
    (prompt_template : String) (n_retries : Nat) :
    RunResult × List Event :=
  run_attempts
    (one_macro_topic_attempt g model model_kwargs n_macro_topics
      prompt_template) 0 n_retries []

/-- Number of diagnostic messages (printed lines) in a trace. -/
def diagCount (t : List Event) : Nat :=
  t.countP fun e =>
    match e with
    | Event.diag _ _ => true
    | _ => false

/-- Number of generation-operation invocations in a trace. -/
def genCount (t : List Event) : Nat :=
  t.countP fun e =>
    match e with
    | Event.genCall _ => true
    | _ => false

/-! ### Generic lemmas about the retry driver -/

lemma diagCount_nil : diagCount [] = 0 := rfl

lemma diagCount_append (s t : List Event) :
    diagCount (s ++ t) = diagCount s + diagCount t := by
  simp [diagCount, List.countP_append]

lemma diagCount_cons_diag (i : Nat) (m : String) (t : List Event) :
    diagCount (Event.diag i m :: t) = diagCount t + 1 := by
  simp [diagCount, List.countP_cons]

lemma genCount_append (s t : List Event) :
    genCount (s ++ t) = genCount s + genCount t := by
  simp [genCount, List.countP_append]

lemma genCount_cons_diag (i : Nat) (m : String) (t : List Event) :
    genCount (Event.diag i m :: t) = genCount t := by
  simp [genCount, List.countP_cons]

lemma run_attempts_zero (attempt : Nat → AttemptRes × List Event) (i : Nat)
    (acc : List String) :
    run_attempts attempt i 0 acc = (RunResult.ok acc, []) := rfl

lemma run_attempts_succ_of_success (attempt : Nat → AttemptRes × List Event)
    (i fuel : Nat) (acc ys : List String) (evs : List Event)
    (h : attempt i = (AttemptRes.success ys, evs)) :
    run_attempts attempt i (fuel + 1) acc = (RunResult.ok ys, evs) := by
  simp [run_attempts, h]

lemma run_attempts_succ_of_yamlFail (attempt : Nat → AttemptRes × List Event)
    (i fuel : Nat) (acc : List String) (msg : String) (evs : List Event)
    (h : attempt i = (AttemptRes.yamlFail msg, evs)) :
    run_attempts attempt i (fuel + 1) acc =
      ((run_attempts attempt (i + 1) fuel acc).1,
        evs ++ Event.diag i ("Hit: " ++ msg ++ ", Retrying...") ::
          (run_attempts attempt (i + 1) fuel acc).2) := by
  simp [run_attempts, h]

lemma run_attempts_succ_of_fatal (attempt : Nat → AttemptRes × List Event)
    (i fuel : Nat) (acc : List String) (e : PyError) (evs : List Event)
    (h : attempt i = (AttemptRes.fatal e, evs)) :
    run_attempts attempt i (fuel + 1) acc = (RunResult.err e, evs) := by
  simp [run_attempts, h]

/-- After `k` caught failures the loop reaches a successful attempt: the
run returns the parsed list of that attempt, prints exactly `k`
diagnostics, and makes exactly `k + 1` generation calls. -/
lemma run_attempts_success_after_k (attempt : Nat → AttemptRes × List Event)
    (hdiag : ∀ j, diagCount (attempt j).2 = 0)
    (hgen : ∀ j, genCount (attempt j).2 = 1)
    (k : Nat) :
    ∀ i fuel : Nat, ∀ acc ys : List String, k < fuel →
    (∀ j, j < k → ∃ m, (attempt (i + j)).1 = AttemptRes.yamlFail m) →
    (attempt (i + k)).1 = AttemptRes.success ys →
    (run_attempts attempt i fuel acc).1 = RunResult.ok ys ∧
      diagCount (run_attempts attempt i fuel acc).2 = k ∧
      genCount (run_attempts attempt i fuel acc).2 = k + 1 := by
  induction k with
  | zero =>
    intro i fuel acc ys hk _ hsucc
    obtain ⟨fuel', rfl⟩ : ∃ f, fuel = f + 1 := ⟨fuel - 1, by omega⟩
    have h0 : attempt i = (AttemptRes.success ys, (attempt i).2) := by
      have := hsucc
      simp only [Nat.add_zero] at this
      exact Prod.ext this rfl
    rw [run_attempts_succ_of_success attempt i fuel' acc ys _ h0]
    exact ⟨rfl, hdiag i, hgen i⟩
  | succ k ih =>
    intro i fuel acc ys hk hfail hsucc
    obtain ⟨fuel', rfl⟩ : ∃ f, fuel = f + 1 := ⟨fuel - 1, by omega⟩
    obtain ⟨m, hm⟩ := hfail 0 (Nat.succ_pos k)
    simp only [Nat.add_zero] at hm
    have h0 : attempt i = (AttemptRes.yamlFail m, (attempt i).2) :=
      Prod.ext hm rfl
    rw [run_attempts_succ_of_yamlFail attempt i fuel' acc m _ h0]
    have hrest := ih (i + 1) fuel' acc ys (by omega)
      (fun j hj => by
        have := hfail (j + 1) (by omega)
        rwa [show i + (j + 1) = i + 1 + j by omega] at this)
      (by rwa [show i + 1 + k = i + (k + 1) by omega])
    refine ⟨hrest.1, ?_, ?_⟩
    · rw [diagCount_append, diagCount_cons_diag, hdiag i, hrest.2.1]
      omega
    · rw [genCount_append, genCount_cons_diag, hgen i, hrest.2.2]
      omega

/-- When every remaining attempt fails with a caught conversion error, the
loop exhausts its fuel: the run returns the initial accumulator, prints one
diagnostic per attempt, and makes one generation call per attempt. -/
lemma run_attempts_all_fail (attempt : Nat → AttemptRes × List Event)
    (hdiag : ∀ j, diagCount (attempt j).2 = 0)
    (hgen : ∀ j, genCount (attempt j).2 = 1)
    (fuel : Nat) :
    ∀ i : Nat, ∀ acc : List String,
    (∀ j, j < fuel → ∃ m, (attempt (i + j)).1 = AttemptRes.yamlFail m) →
    (run_attempts attempt i fuel acc).1 = RunResult.ok acc ∧
      diagCount (run_attempts attempt i fuel acc).2 = fuel ∧
      genCount (run_attempts attempt i fuel acc).2 = fuel := by
  induction fuel with
  | zero =>
    intro i acc _
    exact ⟨rfl, rfl, rfl⟩
  | succ fuel ih =>
    intro i acc hfail
    obtain ⟨m, hm⟩ := hfail 0 (Nat.succ_pos fuel)
    simp only [Nat.add_zero] at hm
    have h0 : attempt i = (AttemptRes.yamlFail m, (attempt i).2) :=
      Prod.ext hm rfl
    rw [run_attempts_succ_of_yamlFail attempt i fuel acc m _ h0]
    have hrest := ih (i + 1) acc (fun j hj => by
      have := hfail (j + 1) (by omega)
      rwa [show i + (j + 1) = i + 1 + j by omega] at this)
    refine ⟨hrest.1, ?_, ?_⟩
    · rw [diagCount_append, diagCount_cons_diag, hdiag i, hrest.2.1]
      omega
    · rw [genCount_append, genCount_cons_diag, hgen i, hrest.2.2]
      omega

/-- After `k` caught failures the loop reaches an attempt that raises an
uncaught exception: the run ends with that exception, prints exactly `k`
diagnostics (none for the fatal attempt), and makes exactly `k + 1`
generation calls (no further attempts happen). -/
lemma run_attempts_fatal_after_k (attempt : Nat → AttemptRes × List Event)
    (hdiag : ∀ j, diagCount (attempt j).2 = 0)
    (hgen : ∀ j, genCount (attempt j).2 = 1)
    (k : Nat) :
    ∀ i fuel : Nat, ∀ acc : List String, ∀ e : PyError, k < fuel →
    (∀ j, j < k → ∃ m, (attempt (i + j)).1 = AttemptRes.yamlFail m) →
    (attempt (i + k)).1 = AttemptRes.fatal e →
    (run_attempts attempt i fuel acc).1 = RunResult.err e ∧
      diagCount (run_attempts attempt i fuel acc).2 = k ∧
      genCount (run_attempts attempt i fuel acc).2 = k + 1 := by
  induction k with
  | zero =>
    intro i fuel acc e hk _ hfatal
    obtain ⟨fuel', rfl⟩ : ∃ f, fuel = f + 1 := ⟨fuel - 1, by omega⟩
    simp only [Nat.add_zero] at hfatal
    have h0 : attempt i = (AttemptRes.fatal e, (attempt i).2) :=
      Prod.ext hfatal rfl
    rw [run_attempts_succ_of_fatal attempt i fuel' acc e _ h0]
    exact ⟨rfl, hdiag i, hgen i⟩
  | succ k ih =>
    intro i fuel acc e hk hfail hfatal
    obtain ⟨fuel', rfl⟩ : ∃ f, fuel = f + 1 := ⟨fuel - 1, by omega⟩
    obtain ⟨m, hm⟩ := hfail 0 (Nat.succ_pos k)
    simp only [Nat.add_zero] at hm
    have h0 : attempt i = (AttemptRes.yamlFail m, (attempt i).2) :=
      Prod.ext hm rfl
    rw [run_attempts_succ_of_yamlFail attempt i fuel' acc m _ h0]
    have hrest := ih (i + 1) fuel' acc e (by omega)
      (fun j hj => by
        have := hfail (j + 1) (by omega)
        rwa [show i + (j + 1) = i + 1 + j by omega] at this)
      (by rwa [show i + 1 + k = i + (k + 1) by omega])
    refine ⟨hrest.1, ?_, ?_⟩
    · rw [diagCount_append, diagCount_cons_diag, hdiag i, hrest.2.1]
      omega
    · rw [genCount_append, genCount_cons_diag, hgen i, hrest.2.2]
      omega

/-- A normal return of the retry driver is either the untouched
accumulator or the parsed list of some successful attempt. -/
lemma run_attempts_ok_cases (attempt : Nat → AttemptRes × List Event)
    (fuel : Nat) :
    ∀ i : Nat, ∀ acc l : List String,
    (run_attempts attempt i fuel acc).1 = RunResult.ok l →
    l = acc ∨ ∃ j, (attempt j).1 = AttemptRes.success l := by
  induction fuel with
  | zero =>
    intro i acc l h
    simp only [run_attempts] at h
    exact Or.inl (RunResult.ok.inj h).symm
  | succ fuel ih =>
    intro i acc l h
    rcases ha : attempt i with ⟨res, evs⟩
    cases res with
    | success ys =>
      rw [run_attempts_succ_of_success attempt i fuel acc ys evs ha] at h
      refine Or.inr ⟨i, ?_⟩
      rw [ha, (RunResult.ok.inj h).symm]
    | yamlFail msg =>
      rw [run_attempts_succ_of_yamlFail attempt i fuel acc msg evs ha] at h
      exact ih (i + 1) acc l h
    | fatal e =>
      rw [run_attempts_succ_of_fatal attempt i fuel acc e evs ha] at h
      cases h

/-- Every event of a run's trace either belongs to some attempt's own
events or is a printed diagnostic. -/
lemma run_attempts_mem_trace (attempt : Nat → AttemptRes × List Event)
    (fuel : Nat) :
    ∀ i : Nat, ∀ acc : List String, ∀ e : Event,
    e ∈ (run_attempts attempt i fuel acc).2 →
    (∃ j, e ∈ (attempt j).2) ∨ ∃ j m, e = Event.diag j m := by
  induction fuel with
  | zero =>
    intro i acc e h
    simp [run_attempts] at h
  | succ fuel ih =>
    intro i acc e h
    rcases ha : attempt i with ⟨res, evs⟩
    cases res with
    | success ys =>
      rw [run_attempts_succ_of_success attempt i fuel acc ys evs ha] at h
      exact Or.inl ⟨i, by rw [ha]; exact h⟩
    | yamlFail msg =>
      rw [run_attempts_succ_of_yamlFail attempt i fuel acc msg evs ha] at h
      simp only [List.mem_append, List.mem_cons] at h
      rcases h with h | h | h
      · exact Or.inl ⟨i, by rw [ha]; exact h⟩
      · exact Or.inr ⟨i, _, h⟩
      · exact ih (i + 1) acc e h
    | fatal er =>
      rw [run_attempts_succ_of_fatal attempt i fuel acc er evs ha] at h
      exact Or.inl ⟨i, by rw [ha]; exact h⟩

/-- Two extensionally equal attempt functions drive the loop to identical
results and identical traces. -/
lemma run_attempts_congr (attempt attempt' : Nat → AttemptRes × List Event)
    (h : ∀ j, attempt j = attempt' j) (fuel : Nat) :
    ∀ i : Nat, ∀ acc : List String,
    run_attempts attempt i fuel acc = run_attempts attempt' i fuel acc := by
  induction fuel with
  | zero => intro i acc; rfl
  | succ fuel ih =>
    intro i acc
    simp only [run_attempts, h i, ih (i + 1) acc]

/-! ### Facts about the two attempt bodies -/

lemma one_subtopic_attempt_diagCount (g : Generator) (model : String)
    (model_kwargs : Kwargs) (macro_topic : String) (n_subtopics : Nat)
    (prompt_template : String) (i : Nat) :
    diagCount (one_subtopic_attempt g model model_kwargs macro_topic
      n_subtopics prompt_template i).2 = 0 := by
  unfold one_subtopic_attempt
  split <;> try rfl
  split <;> rfl

lemma one_subtopic_attempt_genCount (g : Generator) (model : String)
    (model_kwargs : Kwargs) (macro_topic : String) (n_subtopics : Nat)
    (prompt_template : String) (i : Nat) :
    genCount (one_subtopic_attempt g model model_kwargs macro_topic
      n_subtopics prompt_template i).2 = 1 := by
  unfold one_subtopic_attempt
  split <;> try rfl
  split <;> rfl

lemma one_macro_topic_attempt_diagCount (g : Generator) (model : String)
    (model_kwargs : Kwargs) (n_macro_topics : Nat)
    (prompt_template : String) (i : Nat) :
    diagCount (one_macro_topic_attempt g model model_kwargs n_macro_topics
      prompt_template i).2 = 0 := by
  unfold one_macro_topic_attempt
  split <;> try rfl
  split <;> rfl

lemma one_macro_topic_attempt_genCount (g : Generator) (model : String)
    (model_kwargs : Kwargs) (n_macro_topics : Nat)
    (prompt_template : String) (i : Nat) :
    genCount (one_macro_topic_attempt g model model_kwargs n_macro_topics
      prompt_template i).2 = 1 := by
  unfold one_macro_topic_attempt
  split <;> try rfl
  split <;> rfl

lemma one_subtopic_attempt_success_of (g : Generator) (model : String)
    (model_kwargs : Kwargs) (macro_topic : String) (n_subtopics : Nat)
    (prompt_template : String) (i : Nat) (r : String)
    (rest ys : List String)
    (h1 : g.generate_subtopics i model model_kwargs macro_topic n_subtopics
      prompt_template = ExceptRes.ok (r :: rest))
    (h2 : g.convert_response_to_yaml_list i r model none =
      ExceptRes.ok ys) :
    (one_subtopic_attempt g model model_kwargs macro_topic n_subtopics
      prompt_template i).1 = AttemptRes.success ys := by
  simp [one_subtopic_attempt, h1, h2]

lemma one_subtopic_attempt_yamlFail_of_convert (g : Generator)
    (model : String) (model_kwargs : Kwargs) (macro_topic : String)
    (n_subtopics : Nat) (prompt_template : String) (i : Nat) (r : String)
    (rest : List String) (msg : String)
    (h1 : g.generate_subtopics i model model_kwargs macro_topic n_subtopics
      prompt_template = ExceptRes.ok (r :: rest))
    (h2 : g.convert_response_to_yaml_list i r model none =
      ExceptRes.raises (PyError.yamlConversionError msg)) :
    (one_subtopic_attempt g model model_kwargs macro_topic n_subtopics
      prompt_template i).1 = AttemptRes.yamlFail msg := by
  simp [one_subtopic_attempt, h1, h2]

lemma one_subtopic_attempt_yamlFail_of_gen (g : Generator) (model : String)
    (model_kwargs : Kwargs) (macro_topic : String) (n_subtopics : Nat)
    (prompt_template : String) (i : Nat) (msg : String)
    (h1 : g.generate_subtopics i model model_kwargs macro_topic n_subtopics
      prompt_template = ExceptRes.raises (PyError.yamlConversionError msg)) :
    (one_subtopic_attempt g model model_kwargs macro_topic n_subtopics
      prompt_template i).1 = AttemptRes.yamlFail msg := by
  simp [one_subtopic_attempt, h1]

lemma one_subtopic_attempt_fatal_of_convert_other (g : Generator)
    (model : String) (model_kwargs : Kwargs) (macro_topic : String)
    (n_subtopics : Nat) (prompt_template : String) (i : Nat) (r : String)
    (rest : List String) (msg : String)
    (h1 : g.generate_subtopics i model model_kwargs macro_topic n_subtopics
      prompt_template = ExceptRes.ok (r :: rest))
    (h2 : g.convert_response_to_yaml_list i r model none =
      ExceptRes.raises (PyError.otherError msg)) :
    (one_subtopic_attempt g model model_kwargs macro_topic n_subtopics
      prompt_template i).1 = AttemptRes.fatal (PyError.otherError msg) := by
  simp [one_subtopic_attempt, h1, h2]

lemma one_subtopic_attempt_fatal_of_gen_other (g : Generator)
    (model : String) (model_kwargs : Kwargs) (macro_topic : String)
    (n_subtopics : Nat) (prompt_template : String) (i : Nat) (msg : String)
    (h1 : g.generate_subtopics i model model_kwargs macro_topic n_subtopics
      prompt_template = ExceptRes.raises (PyError.otherError msg)) :
    (one_subtopic_attempt g model model_kwargs macro_topic n_subtopics
      prompt_template i).1 = AttemptRes.fatal (PyError.otherError msg) := by
  simp [one_subtopic_attempt, h1]

lemma one_subtopic_attempt_fatal_of_empty (g : Generator) (model : String)
    (model_kwargs : Kwargs) (macro_topic : String) (n_subtopics : Nat)
    (prompt_template : String) (i : Nat)
    (h1 : g.generate_subtopics i model model_kwargs macro_topic n_subtopics
      prompt_template = ExceptRes.ok []) :
    (one_subtopic_attempt g model model_kwargs macro_topic n_subtopics
      prompt_template i).1 = AttemptRes.fatal PyError.indexError := by
  simp [one_subtopic_attempt, h1]

lemma one_macro_topic_attempt_success_of (g : Generator) (model : String)
    (model_kwargs : Kwargs) (n_macro_topics : Nat)
    (prompt_template : String) (i : Nat) (r : String)
    (rest ys : List String)
    (h1 : g.generate_macro_topics i n_macro_topics model model_kwargs
      prompt_template = ExceptRes.ok (r :: rest))
    (h2 : g.convert_response_to_yaml_list i r model (some model_kwargs) =
      ExceptRes.ok ys) :
    (one_macro_topic_attempt g model model_kwargs n_macro_topics
      prompt_template i).1 = AttemptRes.success ys := by
  simp [one_macro_topic_attempt, h1, h2]

lemma one_macro_topic_attempt_yamlFail_of_convert (g : Generator)
    (model : String) (model_kwargs : Kwargs) (n_macro_topics : Nat)
    (prompt_template : String) (i : Nat) (r : String)
    (rest : List String) (msg : String)
    (h1 : g.generate_macro_topics i n_macro_topics model model_kwargs
      prompt_template = ExceptRes.ok (r :: rest))
    (h2 : g.convert_response_to_yaml_list i r model (some model_kwargs) =
      ExceptRes.raises (PyError.yamlConversionError msg)) :
    (one_macro_topic_attempt g model model_kwargs n_macro_topics
      prompt_template i).1 = AttemptRes.yamlFail msg := by
  simp [one_macro_topic_attempt, h1, h2]

lemma one_macro_topic_attempt_yamlFail_of_gen (g : Generator)
    (model : String) (model_kwargs : Kwargs) (n_macro_topics : Nat)
    (prompt_template : String) (i : Nat) (msg : String)
    (h1 : g.generate_macro_topics i n_macro_topics model model_kwargs
      prompt_template = ExceptRes.raises (PyError.yamlConversionError msg)) :
    (one_macro_topic_attempt g model model_kwargs n_macro_topics
      prompt_template i).1 = AttemptRes.yamlFail msg := by
  simp [one_macro_topic_attempt, h1]

lemma one_macro_topic_attempt_fatal_of_convert_other (g : Generator)
    (model : String) (model_kwargs : Kwargs) (n_macro_topics : Nat)
    (prompt_template : String) (i : Nat) (r : String)
    (rest : List String) (msg : String)
    (h1 : g.generate_macro_topics i n_macro_topics model model_kwargs
      prompt_template = ExceptRes.ok (r :: rest))
    (h2 : g.convert_response_to_yaml_list i r model (some model_kwargs) =
      ExceptRes.raises (PyError.otherError msg)) :
    (one_macro_topic_attempt g model model_kwargs n_macro_topics
      prompt_template i).1 = AttemptRes.fatal (PyError.otherError msg) := by
  simp [one_macro_topic_attempt, h1, h2]

lemma one_macro_topic_attempt_fatal_of_gen_other (g : Generator)
    (model : String) (model_kwargs : Kwargs) (n_macro_topics : Nat)
    (prompt_template : String) (i : Nat) (msg : String)
    (h1 : g.generate_macro_topics i n_macro_topics model model_kwargs
      prompt_template = ExceptRes.raises (PyError.otherError msg)) :
    (one_macro_topic_attempt g model model_kwargs n_macro_topics
      prompt_template i).1 = AttemptRes.fatal (PyError.otherError msg) := by
  simp [one_macro_topic_attempt, h1]

lemma one_macro_topic_attempt_fatal_of_empty (g : Generator)
    (model : String) (model_kwargs : Kwargs) (n_macro_topics : Nat)
    (prompt_template : String) (i : Nat)
    (h1 : g.generate_macro_topics i n_macro_topics model model_kwargs
      prompt_template = ExceptRes.ok []) :
    (one_macro_topic_attempt g model model_kwargs n_macro_topics
      prompt_template i).1 = AttemptRes.fatal PyError.indexError := by
  simp [one_macro_topic_attempt, h1]

/-- Inversion: a successful subtopic attempt comes from a nonempty
generation result whose first element the conversion parsed into exactly
the returned list. -/
lemma one_subtopic_attempt_success_inv (g : Generator) (model : String)
    (model_kwargs : Kwargs) (macro_topic : String) (n_subtopics : Nat)
    (prompt_template : String) (i : Nat) (l : List String)
    (h : (one_subtopic_attempt g model model_kwargs macro_topic n_subtopics
      prompt_template i).1 = AttemptRes.success l) :
    ∃ r rest, g.generate_subtopics i model model_kwargs macro_topic
        n_subtopics prompt_template = ExceptRes.ok (r :: rest) ∧
      g.convert_response_to_yaml_list i r model none = ExceptRes.ok l := by
  unfold one_subtopic_attempt at h
  split at h <;> rename_i heq
  · cases h
  · rename_i r rest
    split at h <;> rename_i heq2
    · exact ⟨r, rest, heq, by rw [heq2, (AttemptRes.success.inj h)]⟩
    · cases h
    · cases h
  · cases h
  · cases h

/-- Inversion: a successful macro-topic attempt comes from a nonempty
generation result whose first element the conversion (called with
`model_kwargs`) parsed into exactly the returned list. -/
lemma one_macro_topic_attempt_success_inv (g : Generator) (model : String)
    (model_kwargs : Kwargs) (n_macro_topics : Nat)
    (prompt_template : String) (i : Nat) (l : List String)
    (h : (one_macro_topic_attempt g model model_kwargs n_macro_topics
      prompt_template i).1 = AttemptRes.success l) :
    ∃ r rest, g.generate_macro_topics i n_macro_topics model model_kwargs
        prompt_template = ExceptRes.ok (r :: rest) ∧
      g.convert_response_to_yaml_list i r model (some model_kwargs) =
        ExceptRes.ok l := by
  unfold one_macro_topic_attempt at h
  split at h <;> rename_i heq
  · cases h
  · rename_i r rest
    split at h <;> rename_i heq2
    · exact ⟨r, rest, heq, by rw [heq2, (AttemptRes.success.inj h)]⟩
    · cases h
    · cases h
  · cases h
  · cases h

/-- Every conversion call recorded by a subtopic attempt passes the first
element of that attempt's generation result, the plain model identifier,
and no `model_kwargs`. -/
lemma one_subtopic_attempt_convertCall_mem (g : Generator) (model : String)
    (model_kwargs : Kwargs) (macro_topic : String) (n_subtopics : Nat)
    (prompt_template : String) (i j : Nat) (r m : String)
    (kw : Option Kwargs)
    (h : Event.convertCall j r m kw ∈
      (one_subtopic_attempt g model model_kwargs macro_topic n_subtopics
        prompt_template i).2) :
    j = i ∧ m = model ∧ kw = none ∧
      ∃ rest, g.generate_subtopics i model model_kwargs macro_topic
        n_subtopics prompt_template = ExceptRes.ok (r :: rest) := by
  unfold one_subtopic_attempt at h
  split at h <;> rename_i heq
  · simp at h
  · rename_i r' rest
    split at h <;>
      · simp only [List.mem_cons, List.mem_singleton] at h
        rcases h with h | h | h
        · cases h
        · obtain ⟨hj, hr, hm, hkw⟩ := Event.convertCall.inj h
          subst hj; subst hr; subst hm; subst hkw
          exact ⟨rfl, rfl, rfl, rest, heq⟩
        · cases h
  · simp at h
  · simp at h

/-- Every conversion call recorded by a macro-topic attempt passes the
first element of that attempt's generation result, the plain model
identifier, and the configuration mapping. -/
lemma one_macro_topic_attempt_convertCall_mem (g : Generator)
    (model : String) (model_kwargs : Kwargs) (n_macro_topics : Nat)
    (prompt_template : String) (i j : Nat) (r m : String)
    (kw : Option Kwargs)
    (h : Event.convertCall j r m kw ∈
      (one_macro_topic_attempt g model model_kwargs n_macro_topics
        prompt_template i).2) :
    j = i ∧ m = model ∧ kw = some model_kwargs ∧
      ∃ rest, g.generate_macro_topics i n_macro_topics model model_kwargs
        prompt_template = ExceptRes.ok (r :: rest) := by
  unfold one_macro_topic_attempt at h
  split at h <;> rename_i heq
  · simp at h
  · rename_i r' rest
    split at h <;>
      · simp only [List.mem_cons, List.mem_singleton] at h
        rcases h with h | h | h
        · cases h
        · obtain ⟨hj, hr, hm, hkw⟩ := Event.convertCall.inj h
          subst hj; subst hr; subst hm; subst hkw
          exact ⟨rfl, rfl, rfl, rest, heq⟩
        · cases h
  · simp at h
  · simp at h

/-- Two capability call results are head-equivalent when they raise the
same exception or return collections with the same first element (if
any): only the part of the response collection the Python code consumes. -/
def headRel : ExceptRes (List String) → ExceptRes (List String) → Prop
  | ExceptRes.ok l, ExceptRes.ok l' => l.head? = l'.head?
  | ExceptRes.raises e, ExceptRes.raises e' => e = e'
  | _, _ => False

/-- A subtopic attempt depends only on the first element of the generation
response: generators whose generation results are head-equivalent on
attempt `i` and whose conversion operations agree produce identical
attempt outcomes and events. -/
lemma one_subtopic_attempt_head_congr (g g' : Generator) (model : String)
    (model_kwargs : Kwargs) (macro_topic : String) (n_subtopics : Nat)
    (prompt_template : String) (i : Nat)
    (hgen : headRel
      (g.generate_subtopics i model model_kwargs macro_topic n_subtopics
        prompt_template)
      (g'.generate_subtopics i model model_kwargs macro_topic n_subtopics
        prompt_template))
    (hconv : ∀ j r m kw, g.convert_response_to_yaml_list j r m kw =
      g'.convert_response_to_yaml_list j r m kw) :
    one_subtopic_attempt g model model_kwargs macro_topic n_subtopics
        prompt_template i =
      one_subtopic_attempt g' model model_kwargs macro_topic n_subtopics
        prompt_template i := by
  cases hg : g.generate_subtopics i model model_kwargs macro_topic
      n_subtopics prompt_template with
  | ok l =>
    cases hg' : g'.generate_subtopics i model model_kwargs macro_topic
        n_subtopics prompt_template with
    | ok l' =>
      rw [hg, hg'] at hgen
      unfold headRel at hgen
      cases l with
      | nil =>
        cases l' with
        | nil => simp [one_subtopic_attempt, hg, hg']
        | cons r' rest' => simp at hgen
      | cons r rest =>
        cases l' with
        | nil => simp at hgen
        | cons r' rest' =>
          simp only [List.head?] at hgen
          obtain rfl : r = r' := Option.some.inj hgen
          simp [one_subtopic_attempt, hg, hg', hconv i r model none]
    | raises e' =>
      rw [hg, hg'] at hgen
      exact absurd hgen not_false
  | raises e =>
    cases hg' : g'.generate_subtopics i model model_kwargs macro_topic
        n_subtopics prompt_template with
    | ok l' =>
      rw [hg, hg'] at hgen
      exact absurd hgen not_false
    | raises e' =>
      rw [hg, hg'] at hgen
      unfold headRel at hgen
      subst hgen
      cases e with
      | yamlConversionError msg => simp [one_subtopic_attempt, hg, hg']
      | indexError => simp [one_subtopic_attempt, hg, hg']
      | otherError msg => simp [one_subtopic_attempt, hg, hg']

/-- The macro-topic analogue of `one_subtopic_attempt_head_congr`. -/
lemma one_macro_topic_attempt_head_congr (g g' : Generator)
    (model : String) (model_kwargs : Kwargs) (n_macro_topics : Nat)
    (prompt_template : String) (i : Nat)
    (hgen : headRel
      (g.generate_macro_topics i n_macro_topics model model_kwargs
        prompt_template)
      (g'.generate_macro_topics i n_macro_topics model model_kwargs
        prompt_template))
    (hconv : ∀ j r m kw, g.convert_response_to_yaml_list j r m kw =
      g'.convert_response_to_yaml_list j r m kw) :
    one_macro_topic_attempt g model model_kwargs n_macro_topics
        prompt_template i =
      one_macro_topic_attempt g' model model_kwargs n_macro_topics
        prompt_template i := by
  cases hg : g.generate_macro_topics i n_macro_topics model model_kwargs
      prompt_template with
  | ok l =>
    cases hg' : g'.generate_macro_topics i n_macro_topics model
        model_kwargs prompt_template with
    | ok l' =>
      rw [hg, hg'] at hgen
      unfold headRel at hgen
      cases l with
      | nil =>
        cases l' with
        | nil => simp [one_macro_topic_attempt, hg, hg']
        | cons r' rest' => simp at hgen
      | cons r rest =>
        cases l' with
        | nil => simp at hgen
        | cons r' rest' =>
          simp only [List.head?] at hgen
          obtain rfl : r = r' := Option.some.inj hgen
          simp [one_macro_topic_attempt, hg, hg',
            hconv i r model (some model_kwargs)]
    | raises e' =>
      rw [hg, hg'] at hgen
      exact absurd hgen not_false
  | raises e =>
    cases hg' : g'.generate_macro_topics i n_macro_topics model
        model_kwargs prompt_template with
    | ok l' =>
      rw [hg, hg'] at hgen
      exact absurd hgen not_false
    | raises e' =>
      rw [hg, hg'] at hgen
      unfold headRel at hgen
      subst hgen
      cases e with
      | yamlConversionError msg => simp [one_macro_topic_attempt, hg, hg']
      | indexError => simp [one_macro_topic_attempt, hg, hg']
      | otherError msg => simp [one_macro_topic_attempt, hg, hg']

/-! ### Claim theorems -/

/-- C1: for every input and every k with k < `n_retries`, if the
conversion step fails with a `YamlConversionError` on exactly the first k
attempts and then succeeds, then `generate_subtopics` (resp.
`generate_macro_topics`) returns exactly the list produced by the
successful parse and emits exactly k diagnostic messages; in particular
(k = 0), if parsing always succeeds the result is the first attempt's
parse and no diagnostic is emitted. -/
theorem claim_C1 (g : Generator) (model : String) (model_kwargs : Kwargs)
    (macro_topic : String) (n_subtopics n_macro_topics : Nat)
    (pt_sub pt_mac : String) (ks km n_retries : Nat) (ys zs : List String)
    (hks : ks < n_retries) (hkm : km < n_retries)
    (hsubfail : ∀ j, j < ks → ∃ r rest msg,
      g.generate_subtopics j model model_kwargs macro_topic n_subtopics
        pt_sub = ExceptRes.ok (r :: rest) ∧
      g.convert_response_to_yaml_list j r model none =
        ExceptRes.raises (PyError.yamlConversionError msg))
    (hsubsucc : ∃ r rest,
      g.generate_subtopics ks model model_kwargs macro_topic n_subtopics
        pt_sub = ExceptRes.ok (r :: rest) ∧
      g.convert_response_to_yaml_list ks r model none = ExceptRes.ok ys)
    (hmacfail : ∀ j, j < km → ∃ r rest msg,
      g.generate_macro_topics j n_macro_topics model model_kwargs pt_mac =
        ExceptRes.ok (r :: rest) ∧
      g.convert_response_to_yaml_list j r model (some model_kwargs) =
        ExceptRes.raises (PyError.yamlConversionError msg))
    (hmacsucc : ∃ r rest,
      g.generate_macro_topics km n_macro_topics model model_kwargs pt_mac =
        ExceptRes.ok (r :: rest) ∧
      g.convert_response_to_yaml_list km r model (some model_kwargs) =
        ExceptRes.ok zs) :
    (generate_subtopics g model model_kwargs macro_topic n_subtopics
      pt_sub n_retries).1 = RunResult.ok ys ∧
    diagCount (generate_subtopics g model model_kwargs macro_topic
      n_subtopics pt_sub n_retries).2 = ks ∧
    (generate_macro_topics g model model_kwargs n_macro_topics pt_mac
      n_retries).1 = RunResult.ok zs ∧
    diagCount (generate_macro_topics g model model_kwargs n_macro_topics
      pt_mac n_retries).2 = km := by
  obtain ⟨r, rest, hg1, hc1⟩ := hsubsucc
  obtain ⟨r', rest', hg2, hc2⟩ := hmacsucc
  have hs := run_attempts_success_after_k
    (one_subtopic_attempt g model model_kwargs macro_topic n_subtopics
      pt_sub)
    (fun j => one_subtopic_attempt_diagCount g model model_kwargs
      macro_topic n_subtopics pt_sub j)
    (fun j => one_subtopic_attempt_genCount g model model_kwargs
      macro_topic n_subtopics pt_sub j)
    ks 0 n_retries [] ys hks
    (fun j hj => by
      obtain ⟨r0, rest0, msg, h1, h2⟩ := hsubfail j hj
      refine ⟨msg, ?_⟩
      rw [Nat.zero_add]
      exact one_subtopic_attempt_yamlFail_of_convert g model model_kwargs
        macro_topic n_subtopics pt_sub j r0 rest0 msg h1 h2)
    (by
      rw [Nat.zero_add]
      exact one_subtopic_attempt_success_of g model model_kwargs
        macro_topic n_subtopics pt_sub ks r rest ys hg1 hc1)
  have hm := run_attempts_success_after_k
    (one_macro_topic_attempt g model model_kwargs n_macro_topics pt_mac)
    (fun j => one_macro_topic_attempt_diagCount g model model_kwargs
      n_macro_topics pt_mac j)
    (fun j => one_macro_topic_attempt_genCount g model model_kwargs
      n_macro_topics pt_mac j)
    km 0 n_retries [] zs hkm
    (fun j hj => by
      obtain ⟨r0, rest0, msg, h1, h2⟩ := hmacfail j hj
      refine ⟨msg, ?_⟩
      rw [Nat.zero_add]
      exact one_macro_topic_attempt_yamlFail_of_convert g model
        model_kwargs n_macro_topics pt_mac j r0 rest0 msg h1 h2)
    (by
      rw [Nat.zero_add]
      exact one_macro_topic_attempt_success_of g model model_kwargs
        n_macro_topics pt_mac km r' rest' zs hg2 hc2)
  exact ⟨hs.1, hs.2.1, hm.1, hm.2.1⟩

/-- Witness generator for C1: generation always returns one raw response,
the conversion step fails on attempt 0 and succeeds from attempt 1 on. -/
def wgC1 : Generator where
  generate_subtopics := fun _ _ _ _ _ _ => ExceptRes.ok ["raw"]
  generate_macro_topics := fun _ _ _ _ _ => ExceptRes.ok ["raw"]
  convert_response_to_yaml_list := fun i _ _ _ =>
    if i = 0 then ExceptRes.raises (PyError.yamlConversionError "bad")
    else ExceptRes.ok ["a"]

/-- Witness for C1 at k = 1, n_retries = 3. -/
theorem claim_C1_witness :
    (generate_subtopics wgC1 "m" [] "t" 2 "p" 3).1 = RunResult.ok ["a"] ∧
    diagCount (generate_subtopics wgC1 "m" [] "t" 2 "p" 3).2 = 1 ∧
    (generate_macro_topics wgC1 "m" [] 2 "p" 3).1 = RunResult.ok ["a"] ∧
    diagCount (generate_macro_topics wgC1 "m" [] 2 "p" 3).2 = 1 :=
  claim_C1 wgC1 "m" [] "t" 2 2 "p" "p" 1 1 3 ["a"] ["a"]
    (by omega) (by omega)
    (fun j hj => by
      obtain rfl : j = 0 := by omega
      exact ⟨"raw", [], "bad", rfl, rfl⟩)
    ⟨"raw", [], rfl, rfl⟩
    (fun j hj => by
      obtain rfl : j = 0 := by omega
      exact ⟨"raw", [], "bad", rfl, rfl⟩)
    ⟨"raw", [], rfl, rfl⟩

/-- C2: if the conversion step fails with a `YamlConversionError` on every
one of the `n_retries` attempts, both functions return an empty list,
emit exactly `n_retries` diagnostics, and do not signal the exhaustion as
an error (no exception propagates). -/
theorem claim_C2 (g : Generator) (model : String) (model_kwargs : Kwargs)
    (macro_topic : String) (n_subtopics n_macro_topics : Nat)
    (pt_sub pt_mac : String) (n_retries : Nat)
    (hsubfail : ∀ j, j < n_retries → ∃ r rest msg,
      g.generate_subtopics j model model_kwargs macro_topic n_subtopics
        pt_sub = ExceptRes.ok (r :: rest) ∧
      g.convert_response_to_yaml_list j r model none =
        ExceptRes.raises (PyError.yamlConversionError msg))
    (hmacfail : ∀ j, j < n_retries → ∃ r rest msg,
      g.generate_macro_topics j n_macro_topics model model_kwargs pt_mac =
        ExceptRes.ok (r :: rest) ∧
      g.convert_response_to_yaml_list j r model (some model_kwargs) =
        ExceptRes.raises (PyError.yamlConversionError msg)) :
    (generate_subtopics g model model_kwargs macro_topic n_subtopics
      pt_sub n_retries).1 = RunResult.ok [] ∧
    diagCount (generate_subtopics g model model_kwargs macro_topic
      n_subtopics pt_sub n_retries).2 = n_retries ∧
    (∀ e, (generate_subtopics g model model_kwargs macro_topic n_subtopics
      pt_sub n_retries).1 ≠ RunResult.err e) ∧
    (generate_macro_topics g model model_kwargs n_macro_topics pt_mac
      n_retries).1 = RunResult.ok [] ∧
    diagCount (generate_macro_topics g model model_kwargs n_macro_topics
      pt_mac n_retries).2 = n_retries ∧
    (∀ e, (generate_macro_topics g model model_kwargs n_macro_topics
      pt_mac n_retries).1 ≠ RunResult.err e) := by
  have hs := run_attempts_all_fail
    (one_subtopic_attempt g model model_kwargs macro_topic n_subtopics
      pt_sub)
    (fun j => one_subtopic_attempt_diagCount g model model_kwargs
      macro_topic n_subtopics pt_sub j)
    (fun j => one_subtopic_attempt_genCount g model model_kwargs
      macro_topic n_subtopics pt_sub j)
    n_retries 0 []
    (fun j hj => by
      obtain ⟨r0, rest0, msg, h1, h2⟩ := hsubfail j hj
      refine ⟨msg, ?_⟩
      rw [Nat.zero_add]
      exact one_subtopic_attempt_yamlFail_of_convert g model model_kwargs
        macro_topic n_subtopics pt_sub j r0 rest0 msg h1 h2)
  have hm := run_attempts_all_fail
    (one_macro_topic_attempt g model model_kwargs n_macro_topics pt_mac)
    (fun j => one_macro_topic_attempt_diagCount g model model_kwargs
      n_macro_topics pt_mac j)
    (fun j => one_macro_topic_attempt_genCount g model model_kwargs
      n_macro_topics pt_mac j)
    n_retries 0 []
    (fun j hj => by
      obtain ⟨r0, rest0, msg, h1, h2⟩ := hmacfail j hj
      refine ⟨msg, ?_⟩
      rw [Nat.zero_add]
      exact one_macro_topic_attempt_yamlFail_of_convert g model
        model_kwargs n_macro_topics pt_mac j r0 rest0 msg h1 h2)
  have h1 : (generate_subtopics g model model_kwargs macro_topic
      n_subtopics pt_sub n_retries).1 = RunResult.ok [] := hs.1
  have h2 : (generate_macro_topics g model model_kwargs n_macro_topics
      pt_mac n_retries).1 = RunResult.ok [] := hm.1
  refine ⟨hs.1, hs.2.1, ?_, hm.1, hm.2.1, ?_⟩
  · intro e he
    rw [h1] at he
    cases he
  · intro e he
    rw [h2] at he
    cases he

/-- Witness generator for C2: the conversion step always fails with a
`YamlConversionError`. -/
def wgC2 : Generator where
  generate_subtopics := fun _ _ _ _ _ _ => ExceptRes.ok ["raw"]
  generate_macro_topics := fun _ _ _ _ _ => ExceptRes.ok ["raw"]
  convert_response_to_yaml_list := fun _ _ _ _ =>
    ExceptRes.raises (PyError.yamlConversionError "bad")

/-- Witness for C2 at n_retries = 3. -/
theorem claim_C2_witness :
    (generate_subtopics wgC2 "m" [] "t" 2 "p" 3).1 = RunResult.ok [] ∧
    diagCount (generate_subtopics wgC2 "m" [] "t" 2 "p" 3).2 = 3 ∧
    (∀ e, (generate_subtopics wgC2 "m" [] "t" 2 "p" 3).1 ≠
      RunResult.err e) ∧
    (generate_macro_topics wgC2 "m" [] 2 "p" 3).1 = RunResult.ok [] ∧
    diagCount (generate_macro_topics wgC2 "m" [] 2 "p" 3).2 = 3 ∧
    (∀ e, (generate_macro_topics wgC2 "m" [] 2 "p" 3).1 ≠
      RunResult.err e) :=
  claim_C2 wgC2 "m" [] "t" 2 2 "p" "p" 3
    (fun j hj => ⟨"raw", [], "bad", rfl, rfl⟩)
    (fun j hj => ⟨"raw", [], "bad", rfl, rfl⟩)

/-- C5: with n_retries = 0 both functions return an empty list
immediately: the loop body never runs, so the generator capability is
invoked zero times and no diagnostic is emitted (the trace is empty). -/
theorem claim_C5 (g : Generator) (model : String) (model_kwargs : Kwargs)
    (macro_topic : String) (n_subtopics n_macro_topics : Nat)
    (pt_sub pt_mac : String) :
    generate_subtopics g model model_kwargs macro_topic n_subtopics
      pt_sub 0 = (RunResult.ok [], []) ∧
    genCount (generate_subtopics g model model_kwargs macro_topic
      n_subtopics pt_sub 0).2 = 0 ∧
    diagCount (generate_subtopics g model model_kwargs macro_topic
      n_subtopics pt_sub 0).2 = 0 ∧
    generate_macro_topics g model model_kwargs n_macro_topics pt_mac 0 =
      (RunResult.ok [], []) ∧
    genCount (generate_macro_topics g model model_kwargs n_macro_topics
      pt_mac 0).2 = 0 ∧
    diagCount (generate_macro_topics g model model_kwargs n_macro_topics
      pt_mac 0).2 = 0 :=
  ⟨rfl, rfl, rfl, rfl, rfl, rfl⟩

/-! ### Remaining claim theorems -/

/-- C3: if, after any number k of caught conversion failures, an attempt
raises an exception that is not a `YamlConversionError` — whether from the
generation call or from the conversion call — that exception propagates
immediately: the run ends with it, no further attempt happens (exactly
k + 1 generation calls), and no diagnostic is emitted for that attempt
(exactly k diagnostics in total). -/
theorem claim_C3 (g : Generator) (model : String) (model_kwargs : Kwargs)
    (macro_topic : String) (n_subtopics n_macro_topics : Nat)
    (pt_sub pt_mac : String) (ks km n_retries : Nat) (msgs msgm : String)
    (hks : ks < n_retries) (hkm : km < n_retries)
    (hsubfail : ∀ j, j < ks → ∃ r rest msg,
      g.generate_subtopics j model model_kwargs macro_topic n_subtopics
        pt_sub = ExceptRes.ok (r :: rest) ∧
      g.convert_response_to_yaml_list j r model none =
        ExceptRes.raises (PyError.yamlConversionError msg))
    (hsubfatal :
      g.generate_subtopics ks model model_kwargs macro_topic n_subtopics
        pt_sub = ExceptRes.raises (PyError.otherError msgs) ∨
      ∃ r rest,
        g.generate_subtopics ks model model_kwargs macro_topic n_subtopics
          pt_sub = ExceptRes.ok (r :: rest) ∧
        g.convert_response_to_yaml_list ks r model none =
          ExceptRes.raises (PyError.otherError msgs))
    (hmacfail : ∀ j, j < km → ∃ r rest msg,
      g.generate_macro_topics j n_macro_topics model model_kwargs pt_mac =
        ExceptRes.ok (r :: rest) ∧
      g.convert_response_to_yaml_list j r model (some model_kwargs) =
        ExceptRes.raises (PyError.yamlConversionError msg))
    (hmacfatal :
      g.generate_macro_topics km n_macro_topics model model_kwargs pt_mac =
        ExceptRes.raises (PyError.otherError msgm) ∨
      ∃ r rest,
        g.generate_macro_topics km n_macro_topics model model_kwargs
          pt_mac = ExceptRes.ok (r :: rest) ∧
        g.convert_response_to_yaml_list km r model (some model_kwargs) =
          ExceptRes.raises (PyError.otherError msgm)) :
    (generate_subtopics g model model_kwargs macro_topic n_subtopics
      pt_sub n_retries).1 = RunResult.err (PyError.otherError msgs) ∧
    diagCount (generate_subtopics g model model_kwargs macro_topic
      n_subtopics pt_sub n_retries).2 = ks ∧
    genCount (generate_subtopics g model model_kwargs macro_topic
      n_subtopics pt_sub n_retries).2 = ks + 1 ∧
    (generate_macro_topics g model model_kwargs n_macro_topics pt_mac
      n_retries).1 = RunResult.err (PyError.otherError msgm) ∧
    diagCount (generate_macro_topics g model model_kwargs n_macro_topics
      pt_mac n_retries).2 = km ∧
    genCount (generate_macro_topics g model model_kwargs n_macro_topics
      pt_mac n_retries).2 = km + 1 := by
  have hs := run_attempts_fatal_after_k
    (one_subtopic_attempt g model model_kwargs macro_topic n_subtopics
      pt_sub)
    (fun j => one_subtopic_attempt_diagCount g model model_kwargs
      macro_topic n_subtopics pt_sub j)
    (fun j => one_subtopic_attempt_genCount g model model_kwargs
      macro_topic n_subtopics pt_sub j)
    ks 0 n_retries [] (PyError.otherError msgs) hks
    (fun j hj => by
      obtain ⟨r0, rest0, msg, h1, h2⟩ := hsubfail j hj
      refine ⟨msg, ?_⟩
      rw [Nat.zero_add]
      exact one_subtopic_attempt_yamlFail_of_convert g model model_kwargs
        macro_topic n_subtopics pt_sub j r0 rest0 msg h1 h2)
    (by
      rw [Nat.zero_add]
      rcases hsubfatal with h1 | ⟨r0, rest0, h1, h2⟩
      · exact one_subtopic_attempt_fatal_of_gen_other g model model_kwargs
          macro_topic n_subtopics pt_sub ks msgs h1
      · exact one_subtopic_attempt_fatal_of_convert_other g model
          model_kwargs macro_topic n_subtopics pt_sub ks r0 rest0 msgs
          h1 h2)
  have hm := run_attempts_fatal_after_k
    (one_macro_topic_attempt g model model_kwargs n_macro_topics pt_mac)
    (fun j => one_macro_topic_attempt_diagCount g model model_kwargs
      n_macro_topics pt_mac j)
    (fun j => one_macro_topic_attempt_genCount g model model_kwargs
      n_macro_topics pt_mac j)
    km 0 n_retries [] (PyError.otherError msgm) hkm
    (fun j hj => by
      obtain ⟨r0, rest0, msg, h1, h2⟩ := hmacfail j hj
      refine ⟨msg, ?_⟩
      rw [Nat.zero_add]
      exact one_macro_topic_attempt_yamlFail_of_convert g model
        model_kwargs n_macro_topics pt_mac j r0 rest0 msg h1 h2)
    (by
      rw [Nat.zero_add]
      rcases hmacfatal with h1 | ⟨r0, rest0, h1, h2⟩
      · exact one_macro_topic_attempt_fatal_of_gen_other g model
          model_kwargs n_macro_topics pt_mac km msgm h1
      · exact one_macro_topic_attempt_fatal_of_convert_other g model
          model_kwargs n_macro_topics pt_mac km r0 rest0 msgm h1 h2)
  exact ⟨hs.1, hs.2.1, hs.2.2, hm.1, hm.2.1, hm.2.2⟩

/-- Witness generator for C3: the conversion fails with a
`YamlConversionError` on attempt 0 and raises a non-conversion error on
attempt 1, with plenty of retries left. -/
def wgC3 : Generator where
  generate_subtopics := fun _ _ _ _ _ _ => ExceptRes.ok ["raw"]
  generate_macro_topics := fun _ _ _ _ _ => ExceptRes.ok ["raw"]
  convert_response_to_yaml_list := fun i _ _ _ =>
    if i = 0 then ExceptRes.raises (PyError.yamlConversionError "bad")
    else ExceptRes.raises (PyError.otherError "boom")

/-- Witness for C3 at k = 1, n_retries = 5. -/
theorem claim_C3_witness :
    (generate_subtopics wgC3 "m" [] "t" 2 "p" 5).1 =
      RunResult.err (PyError.otherError "boom") ∧
    diagCount (generate_subtopics wgC3 "m" [] "t" 2 "p" 5).2 = 1 ∧
    genCount (generate_subtopics wgC3 "m" [] "t" 2 "p" 5).2 = 1 + 1 ∧
    (generate_macro_topics wgC3 "m" [] 2 "p" 5).1 =
      RunResult.err (PyError.otherError "boom") ∧
    diagCount (generate_macro_topics wgC3 "m" [] 2 "p" 5).2 = 1 ∧
    genCount (generate_macro_topics wgC3 "m" [] 2 "p" 5).2 = 1 + 1 :=
  claim_C3 wgC3 "m" [] "t" 2 2 "p" "p" 1 1 5 "boom" "boom"
    (by omega) (by omega)
    (fun j hj => by
      obtain rfl : j = 0 := by omega
      exact ⟨"raw", [], "bad", rfl, rfl⟩)
    (Or.inr ⟨"raw", [], rfl, rfl⟩)
    (fun j hj => by
      obtain rfl : j = 0 := by omega
      exact ⟨"raw", [], "bad", rfl, rfl⟩)
    (Or.inr ⟨"raw", [], rfl, rfl⟩)

/-- C8: the recoverable window covers the whole `try` body, not only the
parse: a `YamlConversionError` raised by the generation call itself is
caught, counted as a failed attempt with one diagnostic, and retried
exactly like a conversion-step failure — after k such generation-step
failures a successful attempt still yields its parse with exactly k
diagnostics. -/
theorem claim_C8 (g : Generator) (model : String) (model_kwargs : Kwargs)
    (macro_topic : String) (n_subtopics n_macro_topics : Nat)
    (pt_sub pt_mac : String) (ks km n_retries : Nat) (ys zs : List String)
    (hks : ks < n_retries) (hkm : km < n_retries)
    (hsubfail : ∀ j, j < ks → ∃ msg,
      g.generate_subtopics j model model_kwargs macro_topic n_subtopics
        pt_sub = ExceptRes.raises (PyError.yamlConversionError msg))
    (hsubsucc : ∃ r rest,
      g.generate_subtopics ks model model_kwargs macro_topic n_subtopics
        pt_sub = ExceptRes.ok (r :: rest) ∧
      g.convert_response_to_yaml_list ks r model none = ExceptRes.ok ys)
    (hmacfail : ∀ j, j < km → ∃ msg,
      g.generate_macro_topics j n_macro_topics model model_kwargs pt_mac =
        ExceptRes.raises (PyError.yamlConversionError msg))
    (hmacsucc : ∃ r rest,
      g.generate_macro_topics km n_macro_topics model model_kwargs pt_mac =
        ExceptRes.ok (r :: rest) ∧
      g.convert_response_to_yaml_list km r model (some model_kwargs) =
        ExceptRes.ok zs) :
    (generate_subtopics g model model_kwargs macro_topic n_subtopics
      pt_sub n_retries).1 = RunResult.ok ys ∧
    diagCount (generate_subtopics g model model_kwargs macro_topic
      n_subtopics pt_sub n_retries).2 = ks ∧
    genCount (generate_subtopics g model model_kwargs macro_topic
      n_subtopics pt_sub n_retries).2 = ks + 1 ∧
    (generate_macro_topics g model model_kwargs n_macro_topics pt_mac
      n_retries).1 = RunResult.ok zs ∧
    diagCount (generate_macro_topics g model model_kwargs n_macro_topics
      pt_mac n_retries).2 = km ∧
    genCount (generate_macro_topics g model model_kwargs n_macro_topics
      pt_mac n_retries).2 = km + 1 := by
  obtain ⟨r, rest, hg1, hc1⟩ := hsubsucc
  obtain ⟨r', rest', hg2, hc2⟩ := hmacsucc
  have hs := run_attempts_success_after_k
    (one_subtopic_attempt g model model_kwargs macro_topic n_subtopics
      pt_sub)
    (fun j => one_subtopic_attempt_diagCount g model model_kwargs
      macro_topic n_subtopics pt_sub j)
    (fun j => one_subtopic_attempt_genCount g model model_kwargs
      macro_topic n_subtopics pt_sub j)
    ks 0 n_retries [] ys hks
    (fun j hj => by
      obtain ⟨msg, h1⟩ := hsubfail j hj
      refine ⟨msg, ?_⟩
      rw [Nat.zero_add]
      exact one_subtopic_attempt_yamlFail_of_gen g model model_kwargs
        macro_topic n_subtopics pt_sub j msg h1)
    (by
      rw [Nat.zero_add]
      exact one_subtopic_attempt_success_of g model model_kwargs
        macro_topic n_subtopics pt_sub ks r rest ys hg1 hc1)
  have hm := run_attempts_success_after_k
    (one_macro_topic_attempt g model model_kwargs n_macro_topics pt_mac)
    (fun j => one_macro_topic_attempt_diagCount g model model_kwargs
      n_macro_topics pt_mac j)
    (fun j => one_macro_topic_attempt_genCount g model model_kwargs
      n_macro_topics pt_mac j)
    km 0 n_retries [] zs hkm
    (fun j hj => by
      obtain ⟨msg, h1⟩ := hmacfail j hj
      refine ⟨msg, ?_⟩
      rw [Nat.zero_add]
      exact one_macro_topic_attempt_yamlFail_of_gen g model model_kwargs
        n_macro_topics pt_mac j msg h1)
    (by
      rw [Nat.zero_add]
      exact one_macro_topic_attempt_success_of g model model_kwargs
        n_macro_topics pt_mac km r' rest' zs hg2 hc2)
  exact ⟨hs.1, hs.2.1, hs.2.2, hm.1, hm.2.1, hm.2.2⟩

/-- Witness generator for C8: the generation call itself raises a
`YamlConversionError` on attempt 0 and succeeds from attempt 1 on;
conversion always succeeds. -/
def wgC8 : Generator where
  generate_subtopics := fun i _ _ _ _ _ =>
    if i = 0 then ExceptRes.raises (PyError.yamlConversionError "genbad")
    else ExceptRes.ok ["raw"]
  generate_macro_topics := fun i _ _ _ _ =>
    if i = 0 then ExceptRes.raises (PyError.yamlConversionError "genbad")
    else ExceptRes.ok ["raw"]
  convert_response_to_yaml_list := fun _ _ _ _ => ExceptRes.ok ["a"]

/-- Witness for C8 at k = 1, n_retries = 4. -/
theorem claim_C8_witness :
    (generate_subtopics wgC8 "m" [] "t" 2 "p" 4).1 = RunResult.ok ["a"] ∧
    diagCount (generate_subtopics wgC8 "m" [] "t" 2 "p" 4).2 = 1 ∧
    genCount (generate_subtopics wgC8 "m" [] "t" 2 "p" 4).2 = 1 + 1 ∧
    (generate_macro_topics wgC8 "m" [] 2 "p" 4).1 = RunResult.ok ["a"] ∧
    diagCount (generate_macro_topics wgC8 "m" [] 2 "p" 4).2 = 1 ∧
    genCount (generate_macro_topics wgC8 "m" [] 2 "p" 4).2 = 1 + 1 :=
  claim_C8 wgC8 "m" [] "t" 2 2 "p" "p" 1 1 4 ["a"] ["a"]
    (by omega) (by omega)
    (fun j hj => by
      obtain rfl : j = 0 := by omega
      exact ⟨"genbad", rfl⟩)
    ⟨"raw", [], rfl, rfl⟩
    (fun j hj => by
      obtain rfl : j = 0 := by omega
      exact ⟨"genbad", rfl⟩)
    ⟨"raw", [], rfl, rfl⟩

/-- C9: if, after any number k of caught failures, the generation call
returns an empty response collection, indexing `llm_response[0]` raises an
`IndexError` which the retry handler does not catch: the run ends with
that error (it is not an empty-list normal return), no further attempt
happens, and no diagnostic is emitted for that attempt. -/
theorem claim_C9 (g : Generator) (model : String) (model_kwargs : Kwargs)
    (macro_topic : String) (n_subtopics n_macro_topics : Nat)
    (pt_sub pt_mac : String) (ks km n_retries : Nat)
    (hks : ks < n_retries) (hkm : km < n_retries)
    (hsubfail : ∀ j, j < ks → ∃ msg,
      g.generate_subtopics j model model_kwargs macro_topic n_subtopics
        pt_sub = ExceptRes.raises (PyError.yamlConversionError msg))
    (hsubempty : g.generate_subtopics ks model model_kwargs macro_topic
      n_subtopics pt_sub = ExceptRes.ok [])
    (hmacfail : ∀ j, j < km → ∃ msg,
      g.generate_macro_topics j n_macro_topics model model_kwargs pt_mac =
        ExceptRes.raises (PyError.yamlConversionError msg))
    (hmacempty : g.generate_macro_topics km n_macro_topics model
      model_kwargs pt_mac = ExceptRes.ok []) :
    (generate_subtopics g model model_kwargs macro_topic n_subtopics
      pt_sub n_retries).1 = RunResult.err PyError.indexError ∧
    (∀ l, (generate_subtopics g model model_kwargs macro_topic n_subtopics
      pt_sub n_retries).1 ≠ RunResult.ok l) ∧
    diagCount (generate_subtopics g model model_kwargs macro_topic
      n_subtopics pt_sub n_retries).2 = ks ∧
    genCount (generate_subtopics g model model_kwargs macro_topic
      n_subtopics pt_sub n_retries).2 = ks + 1 ∧
    (generate_macro_topics g model model_kwargs n_macro_topics pt_mac
      n_retries).1 = RunResult.err PyError.indexError ∧
    (∀ l, (generate_macro_topics g model model_kwargs n_macro_topics
      pt_mac n_retries).1 ≠ RunResult.ok l) ∧
    diagCount (generate_macro_topics g model model_kwargs n_macro_topics
      pt_mac n_retries).2 = km ∧
    genCount (generate_macro_topics g model model_kwargs n_macro_topics
      pt_mac n_retries).2 = km + 1 := by
  have hs := run_attempts_fatal_after_k
    (one_subtopic_attempt g model model_kwargs macro_topic n_subtopics
      pt_sub)
    (fun j => one_subtopic_attempt_diagCount g model model_kwargs
      macro_topic n_subtopics pt_sub j)
    (fun j => one_subtopic_attempt_genCount g model model_kwargs
      macro_topic n_subtopics pt_sub j)
    ks 0 n_retries [] PyError.indexError hks
    (fun j hj => by
      obtain ⟨msg, h1⟩ := hsubfail j hj
      refine ⟨msg, ?_⟩
      rw [Nat.zero_add]
      exact one_subtopic_attempt_yamlFail_of_gen g model model_kwargs
        macro_topic n_subtopics pt_sub j msg h1)
    (by
      rw [Nat.zero_add]
      exact one_subtopic_attempt_fatal_of_empty g model model_kwargs
        macro_topic n_subtopics pt_sub ks hsubempty)
  have hm := run_attempts_fatal_after_k
    (one_macro_topic_attempt g model model_kwargs n_macro_topics pt_mac)
    (fun j => one_macro_topic_attempt_diagCount g model model_kwargs
      n_macro_topics pt_mac j)
    (fun j => one_macro_topic_attempt_genCount g model model_kwargs
      n_macro_topics pt_mac j)
    km 0 n_retries [] PyError.indexError hkm
    (fun j hj => by
      obtain ⟨msg, h1⟩ := hmacfail j hj
      refine ⟨msg, ?_⟩
      rw [Nat.zero_add]
      exact one_macro_topic_attempt_yamlFail_of_gen g model model_kwargs
        n_macro_topics pt_mac j msg h1)
    (by
      rw [Nat.zero_add]
      exact one_macro_topic_attempt_fatal_of_empty g model model_kwargs
        n_macro_topics pt_mac km hmacempty)
  have h1 : (generate_subtopics g model model_kwargs macro_topic
      n_subtopics pt_sub n_retries).1 = RunResult.err PyError.indexError :=
    hs.1
  have h2 : (generate_macro_topics g model model_kwargs n_macro_topics
      pt_mac n_retries).1 = RunResult.err PyError.indexError := hm.1
  refine ⟨hs.1, ?_, hs.2.1, hs.2.2, hm.1, ?_, hm.2.1, hm.2.2⟩
  · intro l hl
    rw [h1] at hl
    cases hl
  · intro l hl
    rw [h2] at hl
    cases hl

/-- Witness generator for C9: the generation call returns an empty
response collection on every attempt. -/
def wgC9 : Generator where
  generate_subtopics := fun _ _ _ _ _ _ => ExceptRes.ok []
  generate_macro_topics := fun _ _ _ _ _ => ExceptRes.ok []
  convert_response_to_yaml_list := fun _ _ _ _ => ExceptRes.ok ["a"]

/-- Witness for C9 at k = 0, n_retries = 5. -/
theorem claim_C9_witness :
    (generate_subtopics wgC9 "m" [] "t" 2 "p" 5).1 =
      RunResult.err PyError.indexError ∧
    (∀ l, (generate_subtopics wgC9 "m" [] "t" 2 "p" 5).1 ≠
      RunResult.ok l) ∧
    diagCount (generate_subtopics wgC9 "m" [] "t" 2 "p" 5).2 = 0 ∧
    genCount (generate_subtopics wgC9 "m" [] "t" 2 "p" 5).2 = 0 + 1 ∧
    (generate_macro_topics wgC9 "m" [] 2 "p" 5).1 =
      RunResult.err PyError.indexError ∧
    (∀ l, (generate_macro_topics wgC9 "m" [] 2 "p" 5).1 ≠
      RunResult.ok l) ∧
    diagCount (generate_macro_topics wgC9 "m" [] 2 "p" 5).2 = 0 ∧
    genCount (generate_macro_topics wgC9 "m" [] 2 "p" 5).2 = 0 + 1 :=
  claim_C9 wgC9 "m" [] "t" 2 2 "p" "p" 0 0 5
    (by omega) (by omega)
    (fun j hj => absurd hj (by omega))
    rfl
    (fun j hj => absurd hj (by omega))
    rfl

/-- C10: for a fixed deterministic behaviour of the generator capability,
both functions are deterministic — two runs with the same capability
behaviour and identical inputs produce identical return values and
identical event traces (in particular identical diagnostic sequences); the
functions hold no state across calls. -/
theorem claim_C10 (g g' : Generator) (model : String)
    (model_kwargs : Kwargs) (macro_topic : String)
    (n_subtopics n_macro_topics : Nat) (pt_sub pt_mac : String)
    (n_retries : Nat) (h : g = g') :
    generate_subtopics g model model_kwargs macro_topic n_subtopics
        pt_sub n_retries =
      generate_subtopics g' model model_kwargs macro_topic n_subtopics
        pt_sub n_retries ∧
    generate_macro_topics g model model_kwargs n_macro_topics pt_mac
        n_retries =
      generate_macro_topics g' model model_kwargs n_macro_topics pt_mac
        n_retries := by
  subst h
  exact ⟨rfl, rfl⟩

/-- Witness generator for C10. -/
def wgC10 : Generator where
  generate_subtopics := fun _ _ _ _ _ _ => ExceptRes.ok ["raw"]
  generate_macro_topics := fun _ _ _ _ _ => ExceptRes.ok ["raw"]
  convert_response_to_yaml_list := fun _ _ _ _ => ExceptRes.ok ["a"]

/-- Witness for C10. -/
theorem claim_C10_witness :
    generate_subtopics wgC10 "m" [] "t" 1 "p" 5 =
      generate_subtopics wgC10 "m" [] "t" 1 "p" 5 ∧
    generate_macro_topics wgC10 "m" [] 1 "p" 5 =
      generate_macro_topics wgC10 "m" [] 1 "p" 5 :=
  claim_C10 wgC10 wgC10 "m" [] "t" 1 1 "p" "p" 5 rfl

/-- C6: on every attempt, both functions pass exactly the first element of
the generation operation's response collection to the conversion
operation (every conversion call recorded in the trace carries the head of
that attempt's generation result), and no other element of the response
collection is consumed: two generators whose generation results agree on
the first element (and on raised exceptions) and whose conversion
operations agree produce identical runs. -/
theorem claim_C6 (g g' : Generator) (model : String)
    (model_kwargs : Kwargs) (macro_topic : String)
    (n_subtopics n_macro_topics : Nat) (pt_sub pt_mac : String)
    (n_retries : Nat) :
    (∀ j r m kw, Event.convertCall j r m kw ∈
        (generate_subtopics g model model_kwargs macro_topic n_subtopics
          pt_sub n_retries).2 →
      ∃ rest, g.generate_subtopics j model model_kwargs macro_topic
        n_subtopics pt_sub = ExceptRes.ok (r :: rest)) ∧
    (∀ j r m kw, Event.convertCall j r m kw ∈
        (generate_macro_topics g model model_kwargs n_macro_topics pt_mac
          n_retries).2 →
      ∃ rest, g.generate_macro_topics j n_macro_topics model model_kwargs
        pt_mac = ExceptRes.ok (r :: rest)) ∧
    ((∀ i, headRel
        (g.generate_subtopics i model model_kwargs macro_topic n_subtopics
          pt_sub)
        (g'.generate_subtopics i model model_kwargs macro_topic
          n_subtopics pt_sub)) →
      (∀ j r m kw, g.convert_response_to_yaml_list j r m kw =
        g'.convert_response_to_yaml_list j r m kw) →
      generate_subtopics g model model_kwargs macro_topic n_subtopics
          pt_sub n_retries =
        generate_subtopics g' model model_kwargs macro_topic n_subtopics
          pt_sub n_retries) ∧
    ((∀ i, headRel
        (g.generate_macro_topics i n_macro_topics model model_kwargs
          pt_mac)
        (g'.generate_macro_topics i n_macro_topics model model_kwargs
          pt_mac)) →
      (∀ j r m kw, g.convert_response_to_yaml_list j r m kw =
        g'.convert_response_to_yaml_list j r m kw) →
      generate_macro_topics g model model_kwargs n_macro_topics pt_mac
          n_retries =
        generate_macro_topics g' model model_kwargs n_macro_topics pt_mac
          n_retries) := by
  refine ⟨?_, ?_, ?_, ?_⟩
  · intro j r m kw hmem
    rcases run_attempts_mem_trace
        (one_subtopic_attempt g model model_kwargs macro_topic n_subtopics
          pt_sub) n_retries 0 [] (Event.convertCall j r m kw) hmem with
      ⟨i, hi⟩ | ⟨i, msg, habs⟩
    · obtain ⟨rfl, _, _, rest, hgen⟩ :=
        one_subtopic_attempt_convertCall_mem g model model_kwargs
          macro_topic n_subtopics pt_sub i j r m kw hi
      exact ⟨rest, hgen⟩
    · cases habs
  · intro j r m kw hmem
    rcases run_attempts_mem_trace
        (one_macro_topic_attempt g model model_kwargs n_macro_topics
          pt_mac) n_retries 0 [] (Event.convertCall j r m kw) hmem with
      ⟨i, hi⟩ | ⟨i, msg, habs⟩
    · obtain ⟨rfl, _, _, rest, hgen⟩ :=
        one_macro_topic_attempt_convertCall_mem g model model_kwargs
          n_macro_topics pt_mac i j r m kw hi
      exact ⟨rest, hgen⟩
    · cases habs
  · intro hgen hconv
    exact run_attempts_congr
      (one_subtopic_attempt g model model_kwargs macro_topic n_subtopics
        pt_sub)
      (one_subtopic_attempt g' model model_kwargs macro_topic n_subtopics
        pt_sub)
      (fun i => one_subtopic_attempt_head_congr g g' model model_kwargs
        macro_topic n_subtopics pt_sub i (hgen i) hconv)
      n_retries 0 []
  · intro hgen hconv
    exact run_attempts_congr
      (one_macro_topic_attempt g model model_kwargs n_macro_topics pt_mac)
      (one_macro_topic_attempt g' model model_kwargs n_macro_topics
        pt_mac)
      (fun i => one_macro_topic_attempt_head_congr g g' model model_kwargs
        n_macro_topics pt_mac i (hgen i) hconv)
      n_retries 0 []

/-- Witness generators for C6: both return a response collection headed by
"raw" but with different unused tails; conversion always succeeds. -/
def wgC6 : Generator where
  generate_subtopics := fun _ _ _ _ _ _ => ExceptRes.ok ["raw", "unusedA"]
  generate_macro_topics := fun _ _ _ _ _ => ExceptRes.ok ["raw", "unusedA"]
  convert_response_to_yaml_list := fun _ _ _ _ => ExceptRes.ok ["a"]

/-- Second witness generator for C6, differing from `wgC6` only in the
tail of the response collection. -/
def wgC6' : Generator where
  generate_subtopics := fun _ _ _ _ _ _ => ExceptRes.ok ["raw", "unusedB"]
  generate_macro_topics := fun _ _ _ _ _ => ExceptRes.ok ["raw", "unusedB"]
  convert_response_to_yaml_list := fun _ _ _ _ => ExceptRes.ok ["a"]

/-- Witness for C6: the recorded conversion call consumed the head of the
response, and changing only the tail of the response collection leaves the
runs identical. -/
theorem claim_C6_witness :
    (∃ rest, wgC6.generate_subtopics 0 "m" [] "t" 1 "p" =
      ExceptRes.ok ("raw" :: rest)) ∧
    (∃ rest, wgC6.generate_macro_topics 0 1 "m" [] "p" =
      ExceptRes.ok ("raw" :: rest)) ∧
    generate_subtopics wgC6 "m" [] "t" 1 "p" 2 =
      generate_subtopics wgC6' "m" [] "t" 1 "p" 2 ∧
    generate_macro_topics wgC6 "m" [] 1 "p" 2 =
      generate_macro_topics wgC6' "m" [] 1 "p" 2 := by
  obtain ⟨h1, h2, h3, h4⟩ := claim_C6 wgC6 wgC6' "m" [] "t" 1 1 "p" "p" 2
  refine ⟨h1 0 "raw" "m" none (by decide),
    h2 0 "raw" "m" (some []) (by decide),
    h3 (fun i => rfl) (fun j r m kw => rfl),
    h4 (fun i => rfl) (fun j r m kw => rfl)⟩

/-- C7: the two variants differ in what they forward to the conversion
operation: every conversion call made by `generate_subtopics` passes the
model identifier and NO configuration mapping, while every conversion call
made by `generate_macro_topics` passes the model identifier AND the
configuration mapping. -/
theorem claim_C7 (g : Generator) (model : String) (model_kwargs : Kwargs)
    (macro_topic : String) (n_subtopics n_macro_topics : Nat)
    (pt_sub pt_mac : String) (n_retries : Nat) :
    (∀ j r m kw, Event.convertCall j r m kw ∈
        (generate_subtopics g model model_kwargs macro_topic n_subtopics
          pt_sub n_retries).2 →
      m = model ∧ kw = none) ∧
    (∀ j r m kw, Event.convertCall j r m kw ∈
        (generate_macro_topics g model model_kwargs n_macro_topics pt_mac
          n_retries).2 →
      m = model ∧ kw = some model_kwargs) := by
  constructor
  · intro j r m kw hmem
    rcases run_attempts_mem_trace
        (one_subtopic_attempt g model model_kwargs macro_topic n_subtopics
          pt_sub) n_retries 0 [] (Event.convertCall j r m kw) hmem with
      ⟨i, hi⟩ | ⟨i, msg, habs⟩
    · obtain ⟨_, hm, hkw, _⟩ :=
        one_subtopic_attempt_convertCall_mem g model model_kwargs
          macro_topic n_subtopics pt_sub i j r m kw hi
      exact ⟨hm, hkw⟩
    · cases habs
  · intro j r m kw hmem
    rcases run_attempts_mem_trace
        (one_macro_topic_attempt g model model_kwargs n_macro_topics
          pt_mac) n_retries 0 [] (Event.convertCall j r m kw) hmem with
      ⟨i, hi⟩ | ⟨i, msg, habs⟩
    · obtain ⟨_, hm, hkw, _⟩ :=
        one_macro_topic_attempt_convertCall_mem g model model_kwargs
          n_macro_topics pt_mac i j r m kw hi
      exact ⟨hm, hkw⟩
    · cases habs

/-- Witness generator for C7. -/
def wgC7 : Generator where
  generate_subtopics := fun _ _ _ _ _ _ => ExceptRes.ok ["raw"]
  generate_macro_topics := fun _ _ _ _ _ => ExceptRes.ok ["raw"]
  convert_response_to_yaml_list := fun _ _ _ _ => ExceptRes.ok ["a"]

/-- Witness for C7: conversion calls recorded in concrete runs carry no
`model_kwargs` in the subtopic variant and carry it in the macro-topic
variant. -/
theorem claim_C7_witness :
    ("m" = "m" ∧ (none : Option Kwargs) = none) ∧
    ("m" = "m" ∧ some [("k", "v")] = some [("k", "v")]) := by
  obtain ⟨h1, h2⟩ := claim_C7 wgC7 "m" [("k", "v")] "t" 1 1 "p" "p" 2
  exact ⟨h1 0 "raw" "m" none (by decide),
    h2 0 "raw" "m" (some [("k", "v")]) (by decide)⟩

/-- Counterexample generator for C4: one topic is requested but the
conversion step parses the response into two topics; the code returns them
both unchanged. -/
def cgC4 : Generator where
  generate_subtopics := fun _ _ _ _ _ _ => ExceptRes.ok ["raw"]
  generate_macro_topics := fun _ _ _ _ _ => ExceptRes.ok ["raw"]
  convert_response_to_yaml_list := fun _ _ _ _ => ExceptRes.ok ["a", "b"]

/-- Second counterexample generator for C4: the very first conversion
succeeds but parses an empty list, so the call returns an empty list even
though no retry attempt failed. -/
def cgC4e : Generator where
  generate_subtopics := fun _ _ _ _ _ _ => ExceptRes.ok ["raw"]
  generate_macro_topics := fun _ _ _ _ _ => ExceptRes.ok ["raw"]
  convert_response_to_yaml_list := fun _ _ _ _ => ExceptRes.ok []

/-- Counterexample to C4 as stated.  With `cgC4`, `n_subtopics = 1` (resp.
`n_macro_topics = 1`) yet both functions return a list of length 2, so the
returned length is NOT bounded by the requested count.  With `cgC4e`, both
functions return an empty list although the first attempt succeeded (the
trace shows zero diagnostics, i.e. no attempt failed), so emptiness does
NOT imply that every retry attempt failed. -/
theorem claim_C4_counterexample :
    ((generate_subtopics cgC4 "m" [] "t" 1 "p" 5).1 =
        RunResult.ok ["a", "b"] ∧
      ¬ (["a", "b"] : List String).length ≤ 1) ∧
    ((generate_macro_topics cgC4 "m" [] 1 "p" 5).1 =
        RunResult.ok ["a", "b"]) ∧
    ((generate_subtopics cgC4e "m" [] "t" 1 "p" 5).1 = RunResult.ok [] ∧
      diagCount (generate_subtopics cgC4e "m" [] "t" 1 "p" 5).2 = 0) ∧
    ((generate_macro_topics cgC4e "m" [] 1 "p" 5).1 = RunResult.ok [] ∧
      diagCount (generate_macro_topics cgC4e "m" [] 1 "p" 5).2 = 0) := by
  refine ⟨⟨?_, ?_⟩, ?_, ⟨?_, ?_⟩, ⟨?_, ?_⟩⟩ <;> decide

/-- C4 (amended): for every call that returns normally, the returned topic
list is either empty or exactly the list produced by some successful
conversion call — its length is whatever the conversion produced, with no
enforced bound of the requested count, and it can be empty even when an
attempt succeeded (a successful parse of an empty list). -/
theorem claim_C4 (g : Generator) (model : String) (model_kwargs : Kwargs)
    (macro_topic : String) (n_subtopics n_macro_topics : Nat)
    (pt_sub pt_mac : String) (n_retries : Nat) (l l' : List String)
    (hsub : (generate_subtopics g model model_kwargs macro_topic
      n_subtopics pt_sub n_retries).1 = RunResult.ok l)
    (hmac : (generate_macro_topics g model model_kwargs n_macro_topics
      pt_mac n_retries).1 = RunResult.ok l') :
    (l = [] ∨ ∃ j r rest,
      g.generate_subtopics j model model_kwargs macro_topic n_subtopics
        pt_sub = ExceptRes.ok (r :: rest) ∧
      g.convert_response_to_yaml_list j r model none =
        ExceptRes.ok l) ∧
    (l' = [] ∨ ∃ j r rest,
      g.generate_macro_topics j n_macro_topics model model_kwargs pt_mac =
        ExceptRes.ok (r :: rest) ∧
      g.convert_response_to_yaml_list j r model (some model_kwargs) =
        ExceptRes.ok l') := by
  constructor
  · rcases run_attempts_ok_cases
        (one_subtopic_attempt g model model_kwargs macro_topic n_subtopics
          pt_sub) n_retries 0 [] l hsub with h | ⟨j, hj⟩
    · exact Or.inl h
    · obtain ⟨r, rest, hgen, hconv⟩ :=
        one_subtopic_attempt_success_inv g model model_kwargs macro_topic
          n_subtopics pt_sub j l hj
      exact Or.inr ⟨j, r, rest, hgen, hconv⟩
  · rcases run_attempts_ok_cases
        (one_macro_topic_attempt g model model_kwargs n_macro_topics
          pt_mac) n_retries 0 [] l' hmac with h | ⟨j, hj⟩
    · exact Or.inl h
    · obtain ⟨r, rest, hgen, hconv⟩ :=
        one_macro_topic_attempt_success_inv g model model_kwargs
          n_macro_topics pt_mac j l' hj
      exact Or.inr ⟨j, r, rest, hgen, hconv⟩

/-- Witness for the amended C4 at the `cgC4` runs: the returned two-element
list is accounted for by a successful conversion call. -/
theorem claim_C4_witness :
    ((["a", "b"] : List String) = [] ∨ ∃ j r rest,
      cgC4.generate_subtopics j "m" [] "t" 1 "p" =
        ExceptRes.ok (r :: rest) ∧
      cgC4.convert_response_to_yaml_list j r "m" none =
        ExceptRes.ok ["a", "b"]) ∧
    ((["a", "b"] : List String) = [] ∨ ∃ j r rest,
      cgC4.generate_macro_topics j 1 "m" [] "p" =
        ExceptRes.ok (r :: rest) ∧
      cgC4.convert_response_to_yaml_list j r "m" (some []) =
        ExceptRes.ok ["a", "b"]) :=
  claim_C4 cgC4 "m" [] "t" 1 1 "p" "p" 5 ["a", "b"] ["a", "b"]
    (by decide) (by decide)
